import Mathlib

/-!
Shallow embedding of the go-todo HTTP service (src/main.go).

The embedding covers the data model (todoModel, todo), the id and timestamp
codecs (the bson ObjectId hex form, the fixed Go layout 2006-01-02 15:04:05,
and Go's RFC3339 JSON serialization of time.Time), and the four request
handlers (getAllTodo, createTodo, updateTodo, deleteTodo) as pure functions
over an explicit store state.  The document store is the opaque external
collaborator of spec section 4.1; its per-record operations are modelled
from that contract, with a per-call error oracle standing for StoreError.
Nondeterministic inputs of a handler call (the decoded request body, the
freshly generated ObjectId, the current time, the store error outcome) are
explicit parameters.
-/

/-- Hexadecimal digit test as accepted by Go's hex.DecodeString:
0-9, a-f and A-F. -/
def isHexDigit (c : Char) : Bool :=
  ('0' ≤ c && c ≤ '9') || ('a' ≤ c && c ≤ 'f') || ('A' ≤ c && c ≤ 'F')

/-- Store-native identifier: the 12 bytes of a bson ObjectId. -/
structure ObjectId where
  bytes : List Nat
deriving DecidableEq

/-- Wall-clock reading of a Go time.Time value, to whole seconds (the only
granularity the service ever formats). -/
structure Time where
  year : Nat
  month : Nat
  day : Nat
  hour : Nat
  minute : Nat
  second : Nat
deriving DecidableEq

/-- Decimal digit character of the last digit of n (48 is the code of 0). -/
def digitChar (n : Nat) : Char := Char.ofNat (48 + n % 10)

/-- Two-digit zero-padded decimal rendering, as Go layout fields 01, 02,
15, 04, 05 produce for in-range values. -/
def pad2 (n : Nat) : List Char := [digitChar (n / 10), digitChar n]

/-- Four-digit zero-padded decimal rendering, as the Go layout field 2006
produces for in-range years. -/
def pad4 (n : Nat) : List Char :=
  [digitChar (n / 1000), digitChar (n / 100), digitChar (n / 10), digitChar n]

/-- Go layout 2006-01-02 15:04:05 applied to a wall-clock reading; this is
the CreatedAt.Format call in getAllTodo. -/
def Time.format (t : Time) : String :=
  ⟨pad4 t.year ++ '-' :: pad2 t.month ++ '-' :: pad2 t.day ++
   ' ' :: pad2 t.hour ++ ':' :: pad2 t.minute ++ ':' :: pad2 t.second⟩

/-- Go's encoding/json serialization of a time.Time value (RFC3339): the
date and the clock joined by a literal T character, then a zone suffix such
as Z or +05:30.  This is how the CreatedAt field of a todoModel embedded in
a response envelope reaches the wire. -/
def Time.marshalJSON (t : Time) (zone : String) : String :=
  ⟨pad4 t.year ++ '-' :: pad2 t.month ++ '-' :: pad2 t.day ++
   'T' :: pad2 t.hour ++ ':' :: pad2 t.minute ++ ':' :: pad2 t.second ++ zone.data⟩

/-- Lower-case hex digit character of a value below 16 (87 + 10 = 97, the
code of the character a). -/
def hexDigitChar (n : Nat) : Char :=
  if n < 10 then Char.ofNat (48 + n) else Char.ofNat (87 + n)

/-- Two lower-case hex digits of one byte, as Go's hex.EncodeToString
renders it. -/
def byteHex (b : Nat) : List Char := [hexDigitChar (b % 256 / 16), hexDigitChar (b % 16)]

/-- Hex method of bson.ObjectId: the 12 id bytes in lower-case hex,
24 characters.  Also the value of the ObjectId MarshalJSON serialization
used when a todoModel is embedded in a response envelope. -/
def ObjectId.Hex (id : ObjectId) : String := ⟨(id.bytes.map byteHex).flatten⟩

/-- Numeric value of a hex digit character, inverse of hexDigitChar on
digits (55 + 10 = 65, the code of the character A). -/
def hexCharVal (c : Char) : Nat :=
  if '0' ≤ c && c ≤ '9' then c.toNat - 48
  else if 'a' ≤ c && c ≤ 'f' then c.toNat - 87
  else c.toNat - 55

/-- Byte-pair decoding of a hex character sequence, as hex.DecodeString. -/
def decodeHexChars : List Char → List Nat
  | c1 :: c2 :: rest => (16 * hexCharVal c1 + hexCharVal c2) :: decodeHexChars rest
  | _ => []

/-- bson.IsObjectIdHex: the string has exactly 24 characters and decodes as
hex. -/
def IsObjectIdHex (s : String) : Bool :=
  s.data.length == 24 && s.data.all isHexDigit

/-- bson.ObjectIdHex: decode a 24-character hex string into the 12 id
bytes. -/
def ObjectIdHex (s : String) : ObjectId := ⟨decodeHexChars s.data⟩

/-- parseId of spec section 4.2: validate the string is a well-formed store
key, then decode it; main.go inlines this as IsObjectIdHex + ObjectIdHex. -/
def parseId (s : String) : Option ObjectId :=
  if IsObjectIdHex s then some (ObjectIdHex s) else none

/-- Well-formedness of an ObjectId value: 12 bytes, each below 256.  Every
id bson.NewObjectId generates satisfies this. -/
def ObjectId.wellFormed (id : ObjectId) : Bool :=
  id.bytes.length == 12 && id.bytes.all (· < 256)

/-- strings.TrimSpace: drop leading and trailing whitespace, as applied to
the id path parameter in deleteTodo and updateTodo. -/
def trimSpace (s : String) : String :=
  ⟨((s.data.dropWhile Char.isWhitespace).reverse.dropWhile Char.isWhitespace).reverse⟩

/-- Storage representation of a task record (todoModel in main.go). -/
structure todoModel where
  ID : ObjectId
  Title : String
  Completed : Bool
  CreatedAt : Time
deriving DecidableEq

/-- Wire representation of a task record (todo in main.go). -/
structure todo where
  ID : String
  Title : String
  Completed : Bool
  CreatedAt : String
deriving DecidableEq

/-- JSON bodies the handlers hand to the renderer: the message envelope,
the message-plus-error envelope, the data-list envelope of getAllTodo, the
message-plus-record envelope of createTodo, and the raw decode error that
createTodo and updateTodo write on malformed bodies. -/
inductive Body where
  | message (message : String)
  | messageErr (message : String) (error : String)
  | dataList (data : List todo)
  | messageData (message : String) (data : todoModel)
  | rawErr (error : String)
deriving DecidableEq

/-- Status code and body of one rendered response. -/
structure HttpResponse where
  status : Nat
  body : Body
deriving DecidableEq

/-- Outcome of one handler call: the response written (none when the
handler returns without writing anything), the store contents afterwards,
and how many store operations were invoked. -/
structure HandlerResult where
  response : Option HttpResponse
  db : List todoModel
  storeCalls : Nat
deriving DecidableEq

/-- net/http StatusProcessing. -/
def StatusProcessing : Nat := 102

/-- net/http StatusOK. -/
def StatusOK : Nat := 200

/-- net/http StatusCreated. -/
def StatusCreated : Nat := 201

/-- net/http StatusBadRequest. -/
def StatusBadRequest : Nat := 400

/-- Modelled from the spec: deleteById of the storage adapter contract
(spec section 4.1), whose implementation lives in the external mgo driver,
removes the record matching the id; store-side absence of the id is not
specially reported. -/
def removeId (db : List todoModel) (id : ObjectId) : List todoModel :=
  db.filter (fun r => r.ID != id)

/-- Modelled from the spec: updateById of the storage adapter contract
(spec section 4.1) applies a partial field set to the record matching the
id and is a no-op success when nothing matches.  The field set is the
dollar-set document built in updateTodo: exactly title and completed. -/
def updateById (db : List todoModel) (id : ObjectId) (title : String) (completed : Bool) :
    List todoModel :=
  db.map (fun r => if r.ID = id then { r with Title := title, Completed := completed } else r)

/-- Wire translation performed inside getAllTodo: identifier to its hex
string, timestamp to the fixed layout, title and completed copied. -/
def toWire (t : todoModel) : todo :=
  ⟨ObjectId.Hex t.ID, t.Title, t.Completed, Time.format t.CreatedAt⟩

/-- Handler of GET on the todo collection (getAllTodo, main.go lines
65-88).  The find-all outcome is the storeErr oracle: some e is a store
failure carrying error e, none is success. -/
def getAllTodo (storeErr : Option String) (db : List todoModel) : HandlerResult :=
  match storeErr with
  | some e => ⟨some ⟨StatusBadRequest, Body.messageErr "Failed to get todos" e⟩, db, 1⟩
  | none => ⟨some ⟨StatusOK, Body.dataList (db.map toWire)⟩, db, 1⟩

/-- Handler of POST on the todo collection (createTodo, main.go lines
90-124).  body is the outcome of decoding the request body; newId and now
stand for the bson.NewObjectId and time.Now calls. -/
def createTodo (body : Except String todo) (newId : ObjectId) (now : Time)
    (storeErr : Option String) (db : List todoModel) : HandlerResult :=
  match body with
  | Except.error e => ⟨some ⟨StatusProcessing, Body.rawErr e⟩, db, 0⟩
  | Except.ok t =>
    if t.Title = "" then
      ⟨some ⟨StatusBadRequest, Body.message "Title is required"⟩, db, 0⟩
    else
      match storeErr with
      | some e => ⟨some ⟨StatusBadRequest, Body.messageErr "Failed to create todo" e⟩, db, 1⟩
      | none =>
          ⟨some ⟨StatusCreated,
                 Body.messageData "Todo created successfully" ⟨newId, t.Title, false, now⟩⟩,
           db ++ [⟨newId, t.Title, false, now⟩], 1⟩

/-- Handler of DELETE on one todo (deleteTodo, main.go lines 126-147). -/
def deleteTodo (idParam : String) (storeErr : Option String) (db : List todoModel) :
    HandlerResult :=
  let id := trimSpace idParam
  if IsObjectIdHex id then
    match storeErr with
    | some e => ⟨some ⟨StatusBadRequest, Body.messageErr "Failed to delete todo" e⟩, db, 1⟩
    | none => ⟨some ⟨StatusOK, Body.message "Todo deleted successfully"⟩,
               removeId db (ObjectIdHex id), 1⟩
  else ⟨some ⟨StatusBadRequest, Body.message "Invalid id"⟩, db, 0⟩

/-- Handler of PUT on one todo (updateTodo, main.go lines 149-186).  On the
fully successful path the Go handler returns without writing any response,
hence response none there. -/
def updateTodo (idParam : String) (body : Except String todo) (storeErr : Option String)
    (db : List todoModel) : HandlerResult :=
  let id := trimSpace idParam
  if IsObjectIdHex id then
    match body with
    | Except.error e => ⟨some ⟨StatusProcessing, Body.rawErr e⟩, db, 0⟩
    | Except.ok t =>
      if t.Title = "" then
        ⟨some ⟨StatusBadRequest, Body.message "Title is required"⟩, db, 0⟩
      else
        match storeErr with
        | some e => ⟨some ⟨StatusBadRequest, Body.messageErr "Failed to update todo" e⟩, db, 1⟩
        | none => ⟨none, updateById db (ObjectIdHex id) t.Title t.Completed, 1⟩
  else ⟨some ⟨StatusBadRequest, Body.message "Invalid id"⟩, db, 0⟩

/-- Shape test for the fixed layout YYYY-MM-DD HH:MM:SS: exactly 19
characters, decimal digits in the date and clock positions, two dashes,
two colons and a single space separator. -/
def isFixedFormat (s : String) : Bool :=
  match s.data with
  | [y1, y2, y3, y4, d1, m1, m2, d2, a1, a2, sp, h1, h2, c1, n1, n2, c2, s1, s2] =>
      y1.isDigit && y2.isDigit && y3.isDigit && y4.isDigit && d1 == '-' &&
      m1.isDigit && m2.isDigit && d2 == '-' && a1.isDigit && a2.isDigit &&
      sp == ' ' && h1.isDigit && h2.isDigit && c1 == ':' && n1.isDigit &&
      n2.isDigit && c2 == ':' && s1.isDigit && s2.isDigit
  | _ => false

/-- Go encoding/json output of one wire record (string escaping omitted:
the fields the service produces never need it). -/
def serializeTodo (t : todo) : String :=
  "\x7b\"id\":\"" ++ t.ID ++ "\",\"title\":\"" ++ t.Title ++ "\",\"completed\":" ++
  (if t.Completed then "true" else "false") ++ ",\"createdAt\":\"" ++ t.CreatedAt ++ "\"\x7d"

/-- Go encoding/json output of the todoList slice built in getAllTodo: the
code initializes a non-nil empty slice, so zero records serialize to an
empty bracket pair and never to null. -/
def serializeTodoList (xs : List todo) : String :=
  "[" ++ String.intercalate "," (xs.map serializeTodo) ++ "]"

/-- Concrete ObjectId used by the witnesses; its hex form is
5a934e000102030405060708. -/
def sampleId : ObjectId := ⟨[90, 147, 78, 0, 1, 2, 3, 4, 5, 6, 7, 8]⟩

/-- Second concrete ObjectId used by the witnesses, distinct from
sampleId; its hex form is aaaaaaaaaaaaaaaaaaaaaaaa. -/
def otherId : ObjectId := ⟨[170, 170, 170, 170, 170, 170, 170, 170, 170, 170, 170, 170]⟩

/-- Concrete time used by the witnesses. -/
def sampleTime : Time := ⟨2026, 10, 11, 12, 30, 45⟩

theorem ofNat_digit_isDigit (k : Nat) (h : k < 10) : (Char.ofNat (48 + k)).isDigit = true := by
  interval_cases k <;> decide

theorem digitChar_isDigit (n : Nat) : (digitChar n).isDigit = true :=
  ofNat_digit_isDigit (n % 10) (by omega)

theorem hexDigitChar_isHex (k : Nat) (h : k < 16) : isHexDigit (hexDigitChar k) = true := by
  interval_cases k <;> decide

theorem hexCharVal_hexDigitChar (k : Nat) (h : k < 16) : hexCharVal (hexDigitChar k) = k := by
  interval_cases k <;> decide

theorem hex_length (bs : List Nat) : ((bs.map byteHex).flatten).length = 2 * bs.length := by
  induction bs with
  | nil => rfl
  | cons b t ih => simp [byteHex, ih]; omega

theorem hex_all_hex (bs : List Nat) : ∀ c ∈ (bs.map byteHex).flatten, isHexDigit c = true := by
  intro c hc
  rw [List.mem_flatten] at hc
  obtain ⟨l, hl, hcl⟩ := hc
  rw [List.mem_map] at hl
  obtain ⟨b, hb, rfl⟩ := hl
  simp [byteHex] at hcl
  rcases hcl with rfl | rfl
  · exact hexDigitChar_isHex _ (by omega)
  · exact hexDigitChar_isHex _ (by omega)

theorem isObjectIdHex_hex (id : ObjectId) (h : ObjectId.wellFormed id = true) :
    IsObjectIdHex (ObjectId.Hex id) = true := by
  unfold ObjectId.wellFormed at h
  simp only [Bool.and_eq_true, beq_iff_eq] at h
  unfold IsObjectIdHex ObjectId.Hex
  simp only [Bool.and_eq_true, beq_iff_eq]
  constructor
  · rw [hex_length, h.1]
  · rw [List.all_eq_true]
    intro c hc
    exact hex_all_hex _ c hc

theorem decodeHexChars_byteHex (b : Nat) (hb : b < 256) (rest : List Char) :
    decodeHexChars (byteHex b ++ rest) = b :: decodeHexChars rest := by
  show decodeHexChars (hexDigitChar (b % 256 / 16) :: hexDigitChar (b % 16) :: rest) = _
  rw [decodeHexChars]
  rw [hexCharVal_hexDigitChar _ (by omega), hexCharVal_hexDigitChar _ (by omega)]
  congr 1
  omega

theorem decode_flatten (bs : List Nat) (h : ∀ b ∈ bs, b < 256) :
    decodeHexChars ((bs.map byteHex).flatten) = bs := by
  induction bs with
  | nil => rfl
  | cons b t ih =>
      rw [List.map_cons, List.flatten_cons]
      rw [decodeHexChars_byteHex b (h b (List.mem_cons_self b t))]
      rw [ih (fun x hx => h x (List.mem_cons_of_mem _ hx))]

theorem parseId_hex (id : ObjectId) (h : ObjectId.wellFormed id = true) :
    parseId (ObjectId.Hex id) = some id := by
  unfold parseId
  rw [isObjectIdHex_hex id h]
  simp only [if_true]
  unfold ObjectIdHex ObjectId.Hex
  unfold ObjectId.wellFormed at h
  simp only [Bool.and_eq_true, beq_iff_eq, List.all_eq_true, decide_eq_true_eq] at h
  rw [decode_flatten _ h.2]

theorem isFixedFormat_format (t : Time) : isFixedFormat (Time.format t) = true := by
  show isFixedFormat ⟨_⟩ = true
  simp only [Time.format, pad4, pad2, isFixedFormat, List.cons_append, List.nil_append]
  simp [digitChar_isDigit]

theorem isFixedFormat_marshalJSON (t : Time) (zone : String) :
    isFixedFormat (Time.marshalJSON t zone) = false := by
  obtain ⟨zdata⟩ := zone
  cases zdata with
  | nil =>
      simp only [Time.marshalJSON, pad4, pad2, isFixedFormat, List.cons_append,
        List.nil_append, List.append_nil]
      simp [show ('T' == ' ') = false from rfl]
  | cons c cs =>
      simp only [Time.marshalJSON, pad4, pad2, isFixedFormat, List.cons_append,
        List.nil_append]

/-- Claim C1 (amended): for every successful create request the record in
the 201 envelope carries the server-generated id and timestamp; its
identifier round-trips through parseId without error, but its createdAt
reaches the wire in Go's RFC3339 JSON form with a T separator, which is not
the fixed YYYY-MM-DD HH:MM:SS layout (that layout is used only by the list
translation). -/
theorem C1_create_id_roundtrips_createdAt_rfc3339
    (t : todo) (newId : ObjectId) (now : Time) (db : List todoModel) (zone : String)
    (ht : t.Title ≠ "") (hid : ObjectId.wellFormed newId = true) :
    (createTodo (Except.ok t) newId now none db).response =
      some ⟨StatusCreated, Body.messageData "Todo created successfully"
        ⟨newId, t.Title, false, now⟩⟩
    ∧ parseId (ObjectId.Hex newId) = some newId
    ∧ isFixedFormat (Time.marshalJSON now zone) = false := by
  refine ⟨?_, parseId_hex newId hid, isFixedFormat_marshalJSON now zone⟩
  simp [createTodo, ht]

/-- Claim C1, counterexample to the claim as stated: at a concrete valid
create the 201 envelope holds the raw stored record, and its createdAt as
serialized by Go JSON is not in the fixed YYYY-MM-DD HH:MM:SS format. -/
theorem C1_counterexample :
    (createTodo (Except.ok ⟨"", "buy milk", false, ""⟩) sampleId sampleTime none []).response =
      some ⟨StatusCreated, Body.messageData "Todo created successfully"
        ⟨sampleId, "buy milk", false, sampleTime⟩⟩
    ∧ isFixedFormat (Time.marshalJSON sampleTime "Z") = false := by
  decide

/-- Claim C1, witness: the amended theorem applied at a concrete create. -/
theorem C1_witness :
    ((⟨"", "buy milk", false, ""⟩ : todo).Title ≠ "" ∧ ObjectId.wellFormed sampleId = true)
    ∧ ((createTodo (Except.ok ⟨"", "buy milk", false, ""⟩) sampleId sampleTime none []).response =
         some ⟨StatusCreated, Body.messageData "Todo created successfully"
           ⟨sampleId, "buy milk", false, sampleTime⟩⟩
       ∧ parseId (ObjectId.Hex sampleId) = some sampleId
       ∧ isFixedFormat (Time.marshalJSON sampleTime "Z") = false) :=
  ⟨⟨by decide, by decide⟩,
   C1_create_id_roundtrips_createdAt_rfc3339 ⟨"", "buy milk", false, ""⟩ sampleId sampleTime []
     "Z" (by decide) (by decide)⟩

/-- Claim C2: deleting any well-formed id returns the 200 success message
regardless of the store contents; deleting an id matching no record yields
the very same response as deleting against any other store contents, and
leaves the collection unchanged. -/
theorem C2_delete_absent_id_success (idParam : String) (db : List todoModel)
    (h : IsObjectIdHex (trimSpace idParam) = true)
    (habs : ∀ r ∈ db, r.ID ≠ ObjectIdHex (trimSpace idParam)) :
    (deleteTodo idParam none db).response =
      some ⟨StatusOK, Body.message "Todo deleted successfully"⟩
    ∧ (deleteTodo idParam none db).db = db
    ∧ ∀ db2, (deleteTodo idParam none db2).response = (deleteTodo idParam none db).response := by
  refine ⟨?_, ?_, ?_⟩
  · simp [deleteTodo, h]
  · simp only [deleteTodo, h, if_true, removeId]
    rw [List.filter_eq_self]
    intro r hr
    simpa using habs r hr
  · intro db2
    simp [deleteTodo, h]

/-- Claim C2, witness: deleting the well-formed but absent id made of 24 a
characters from a store holding one other record. -/
theorem C2_witness :
    (IsObjectIdHex (trimSpace "aaaaaaaaaaaaaaaaaaaaaaaa") = true
     ∧ ∀ r ∈ [(⟨sampleId, "buy milk", false, sampleTime⟩ : todoModel)],
         r.ID ≠ ObjectIdHex (trimSpace "aaaaaaaaaaaaaaaaaaaaaaaa"))
    ∧ ((deleteTodo "aaaaaaaaaaaaaaaaaaaaaaaa" none
          [⟨sampleId, "buy milk", false, sampleTime⟩]).response =
        some ⟨StatusOK, Body.message "Todo deleted successfully"⟩
      ∧ (deleteTodo "aaaaaaaaaaaaaaaaaaaaaaaa" none
          [⟨sampleId, "buy milk", false, sampleTime⟩]).db =
          [⟨sampleId, "buy milk", false, sampleTime⟩]
      ∧ ∀ db2, (deleteTodo "aaaaaaaaaaaaaaaaaaaaaaaa" none db2).response =
          (deleteTodo "aaaaaaaaaaaaaaaaaaaaaaaa" none
            [⟨sampleId, "buy milk", false, sampleTime⟩]).response) :=
  ⟨⟨by decide, by decide⟩,
   C2_delete_absent_id_success "aaaaaaaaaaaaaaaaaaaaaaaa"
     [⟨sampleId, "buy milk", false, sampleTime⟩] (by decide) (by decide)⟩

/-- Claim C3, counterexample to the claim as stated: a whitespace-only
title (a single space) passes the emptiness check, so the create handler
answers 201, calls the store, and inserts the record, instead of the 400
Title-is-required rejection the trim-equivalent reading demands. -/
theorem C3_counterexample :
    createTodo (Except.ok ⟨"", " ", false, ""⟩) sampleId sampleTime none [] =
      ⟨some ⟨StatusCreated, Body.messageData "Todo created successfully"
        ⟨sampleId, " ", false, sampleTime⟩⟩,
       [⟨sampleId, " ", false, sampleTime⟩], 1⟩ := by
  decide

/-- Claim C3 (amended): for every create or update request whose decoded
title is exactly the empty string, the handler answers 400 with message
Title is required and performs no store call; the check is a plain equality
with the empty string, so whitespace-only titles pass it and reach the
store. -/
theorem C3_empty_title_rejected
    (t : todo) (newId : ObjectId) (now : Time) (storeErr : Option String)
    (db : List todoModel) (idParam : String)
    (ht : t.Title = "") (hid : IsObjectIdHex (trimSpace idParam) = true) :
    createTodo (Except.ok t) newId now storeErr db =
      ⟨some ⟨StatusBadRequest, Body.message "Title is required"⟩, db, 0⟩
    ∧ updateTodo idParam (Except.ok t) storeErr db =
      ⟨some ⟨StatusBadRequest, Body.message "Title is required"⟩, db, 0⟩ := by
  constructor
  · simp [createTodo, ht]
  · simp [updateTodo, hid, ht]

/-- Claim C3, witness: the amended theorem at a concrete empty-title
request against both handlers. -/
theorem C3_witness :
    ((⟨"junk", "", true, "junk"⟩ : todo).Title = ""
     ∧ IsObjectIdHex (trimSpace "aaaaaaaaaaaaaaaaaaaaaaaa") = true)
    ∧ (createTodo (Except.ok ⟨"junk", "", true, "junk"⟩) sampleId sampleTime none [] =
        ⟨some ⟨StatusBadRequest, Body.message "Title is required"⟩, [], 0⟩
      ∧ updateTodo "aaaaaaaaaaaaaaaaaaaaaaaa" (Except.ok ⟨"junk", "", true, "junk"⟩) none [] =
        ⟨some ⟨StatusBadRequest, Body.message "Title is required"⟩, [], 0⟩) :=
  ⟨⟨by decide, by decide⟩,
   C3_empty_title_rejected ⟨"junk", "", true, "junk"⟩ sampleId sampleTime none []
     "aaaaaaaaaaaaaaaaaaaaaaaa" (by decide) (by decide)⟩

/-- Claim C4: a successful update rewrites the store by the partial field
set title and completed only; every record keeps its identifier and its
createdAt, and either stays entirely unchanged or takes exactly the
requested title and completed values. -/
theorem C4_update_preserves_id_createdAt
    (idParam : String) (t : todo) (db : List todoModel)
    (hid : IsObjectIdHex (trimSpace idParam) = true) (ht : t.Title ≠ "") :
    List.Forall₂ (fun old new =>
        new.ID = old.ID ∧ new.CreatedAt = old.CreatedAt ∧
        ((new.Title = old.Title ∧ new.Completed = old.Completed) ∨
         (new.Title = t.Title ∧ new.Completed = t.Completed)))
      db (updateTodo idParam (Except.ok t) none db).db := by
  simp [updateTodo, hid, ht, updateById]
  intro r hr
  by_cases hmatch : r.ID = ObjectIdHex (trimSpace idParam)
  · simp [hmatch]
  · simp [hmatch]

/-- Claim C4, witness: updating the one stored record through its own hex
id with a new title and completed flag. -/
theorem C4_witness :
    (IsObjectIdHex (trimSpace "5a934e000102030405060708") = true
     ∧ (⟨"", "new title", true, ""⟩ : todo).Title ≠ "")
    ∧ List.Forall₂ (fun old new =>
        new.ID = old.ID ∧ new.CreatedAt = old.CreatedAt ∧
        ((new.Title = old.Title ∧ new.Completed = old.Completed) ∨
         (new.Title = (⟨"", "new title", true, ""⟩ : todo).Title ∧
          new.Completed = (⟨"", "new title", true, ""⟩ : todo).Completed)))
      [(⟨sampleId, "old title", false, sampleTime⟩ : todoModel)]
      (updateTodo "5a934e000102030405060708"
        (Except.ok ⟨"", "new title", true, ""⟩) none
        [⟨sampleId, "old title", false, sampleTime⟩]).db :=
  ⟨⟨by decide, by decide⟩,
   C4_update_preserves_id_createdAt "5a934e000102030405060708" ⟨"", "new title", true, ""⟩
     [⟨sampleId, "old title", false, sampleTime⟩] (by decide) (by decide)⟩

/-- Claim C5: a request body that fails to decode makes createTodo and
updateTodo answer status 102 (StatusProcessing) carrying the raw decode
error, with the store untouched and never called, whatever the store error
oracle would have said. -/
theorem C5_malformed_body_102
    (e : String) (newId : ObjectId) (now : Time) (storeErr : Option String)
    (db : List todoModel) (idParam : String)
    (hid : IsObjectIdHex (trimSpace idParam) = true) :
    createTodo (Except.error e) newId now storeErr db =
      ⟨some ⟨StatusProcessing, Body.rawErr e⟩, db, 0⟩
    ∧ updateTodo idParam (Except.error e) storeErr db =
      ⟨some ⟨StatusProcessing, Body.rawErr e⟩, db, 0⟩ := by
  constructor
  · rfl
  · simp [updateTodo, hid]

/-- Claim C5, witness: a concrete decode failure against both handlers. -/
theorem C5_witness :
    IsObjectIdHex (trimSpace "aaaaaaaaaaaaaaaaaaaaaaaa") = true
    ∧ (createTodo (Except.error "unexpected EOF") sampleId sampleTime none [] =
        ⟨some ⟨StatusProcessing, Body.rawErr "unexpected EOF"⟩, [], 0⟩
      ∧ updateTodo "aaaaaaaaaaaaaaaaaaaaaaaa" (Except.error "unexpected EOF") none [] =
        ⟨some ⟨StatusProcessing, Body.rawErr "unexpected EOF"⟩, [], 0⟩) :=
  ⟨by decide,
   C5_malformed_body_102 "unexpected EOF" sampleId sampleTime none [] "aaaaaaaaaaaaaaaaaaaaaaaa"
     (by decide)⟩

/-- Claim C6: the list handler answers 200 with the stored records mapped
through toWire, and for each record the wire form carries the hex string of
the identifier (which parses back to the same id), the fixed-format
timestamp string, and the title and completed flag copied unchanged. -/
theorem C6_list_wire_translation (db : List todoModel)
    (hwf : ∀ r ∈ db, ObjectId.wellFormed r.ID = true) :
    (getAllTodo none db).response = some ⟨StatusOK, Body.dataList (db.map toWire)⟩
    ∧ ∀ r ∈ db,
        (toWire r).ID = ObjectId.Hex r.ID
      ∧ (toWire r).Title = r.Title
      ∧ (toWire r).Completed = r.Completed
      ∧ (toWire r).CreatedAt = Time.format r.CreatedAt
      ∧ parseId ((toWire r).ID) = some r.ID
      ∧ isFixedFormat ((toWire r).CreatedAt) = true :=
  ⟨rfl, fun r hr =>
    ⟨rfl, rfl, rfl, rfl, parseId_hex _ (hwf r hr), isFixedFormat_format _⟩⟩

/-- Claim C6, witness: listing a store holding one concrete record. -/
theorem C6_witness :
    (∀ r ∈ [(⟨sampleId, "buy milk", true, sampleTime⟩ : todoModel)],
        ObjectId.wellFormed r.ID = true)
    ∧ ((getAllTodo none [(⟨sampleId, "buy milk", true, sampleTime⟩ : todoModel)]).response =
        some ⟨StatusOK,
          Body.dataList ([(⟨sampleId, "buy milk", true, sampleTime⟩ : todoModel)].map toWire)⟩
      ∧ ∀ r ∈ [(⟨sampleId, "buy milk", true, sampleTime⟩ : todoModel)],
          (toWire r).ID = ObjectId.Hex r.ID
        ∧ (toWire r).Title = r.Title
        ∧ (toWire r).Completed = r.Completed
        ∧ (toWire r).CreatedAt = Time.format r.CreatedAt
        ∧ parseId ((toWire r).ID) = some r.ID
        ∧ isFixedFormat ((toWire r).CreatedAt) = true) :=
  ⟨by decide,
   C6_list_wire_translation [⟨sampleId, "buy milk", true, sampleTime⟩] (by decide)⟩

/-- Claim C7: a delete or update request whose trimmed path id is not a
well-formed store key answers 400 with message Invalid id, leaves the store
untouched and makes no store call, whatever the body and the store error
oracle. -/
theorem C7_invalid_id_400 (idParam : String) (db : List todoModel)
    (storeErr : Option String) (body : Except String todo)
    (h : IsObjectIdHex (trimSpace idParam) = false) :
    deleteTodo idParam storeErr db =
      ⟨some ⟨StatusBadRequest, Body.message "Invalid id"⟩, db, 0⟩
    ∧ updateTodo idParam body storeErr db =
      ⟨some ⟨StatusBadRequest, Body.message "Invalid id"⟩, db, 0⟩ := by
  constructor
  · simp [deleteTodo, h]
  · simp [updateTodo, h]

/-- Claim C7, witness: the malformed id xyz against both handlers. -/
theorem C7_witness :
    IsObjectIdHex (trimSpace "xyz") = false
    ∧ (deleteTodo "xyz" none [] =
        ⟨some ⟨StatusBadRequest, Body.message "Invalid id"⟩, [], 0⟩
      ∧ updateTodo "xyz" (Except.ok ⟨"", "buy milk", false, ""⟩) none [] =
        ⟨some ⟨StatusBadRequest, Body.message "Invalid id"⟩, [], 0⟩) :=
  ⟨by decide,
   C7_invalid_id_400 "xyz" [] none (Except.ok ⟨"", "buy milk", false, ""⟩) (by decide)⟩

/-- Claim C8: an update request that passes id validation, body decoding,
title validation and the store write produces no response at all: the
handler falls through silently, having made its one store call. -/
theorem C8_update_silent_success (idParam : String) (t : todo) (db : List todoModel)
    (hid : IsObjectIdHex (trimSpace idParam) = true) (ht : t.Title ≠ "") :
    (updateTodo idParam (Except.ok t) none db).response = none
    ∧ (updateTodo idParam (Except.ok t) none db).storeCalls = 1 := by
  constructor <;> simp [updateTodo, hid, ht]

/-- Claim C8, witness: a concrete fully successful update. -/
theorem C8_witness :
    (IsObjectIdHex (trimSpace "5a934e000102030405060708") = true
     ∧ (⟨"", "new title", true, ""⟩ : todo).Title ≠ "")
    ∧ ((updateTodo "5a934e000102030405060708" (Except.ok ⟨"", "new title", true, ""⟩) none
          [⟨sampleId, "old title", false, sampleTime⟩]).response = none
      ∧ (updateTodo "5a934e000102030405060708" (Except.ok ⟨"", "new title", true, ""⟩) none
          [⟨sampleId, "old title", false, sampleTime⟩]).storeCalls = 1) :=
  ⟨⟨by decide, by decide⟩,
   C8_update_silent_success "5a934e000102030405060708" ⟨"", "new title", true, ""⟩
     [⟨sampleId, "old title", false, sampleTime⟩] (by decide) (by decide)⟩

/-- Claim C9: listing an empty collection answers 200 with a data field
holding the empty sequence; the non-nil empty slice serializes to an empty
bracket pair, not to null, and the field is present in the envelope. -/
theorem C9_empty_list_response :
    getAllTodo none [] = ⟨some ⟨StatusOK, Body.dataList []⟩, [], 1⟩
    ∧ serializeTodoList [] = "[]"
    ∧ serializeTodoList [] ≠ "null" :=
  ⟨rfl, rfl, by decide⟩

/-- Claim C10: every successful create persists and returns the record
built server-side: the freshly generated id, the request title, completed
forced to false, and the current time; the completed, id and createdAt
values of the wire input are ignored. -/
theorem C10_create_server_side_fields
    (t : todo) (newId : ObjectId) (now : Time) (db : List todoModel)
    (ht : t.Title ≠ "") :
    createTodo (Except.ok t) newId now none db =
      ⟨some ⟨StatusCreated, Body.messageData "Todo created successfully"
          ⟨newId, t.Title, false, now⟩⟩,
       db ++ [⟨newId, t.Title, false, now⟩], 1⟩ := by
  simp [createTodo, ht]

/-- Claim C10, witness: a create whose wire input supplies completed true
and junk id and createdAt strings; the stored record still has completed
false and the server-generated id and time. -/
theorem C10_witness :
    (⟨"ffffffffffffffffffffffff", "walk dog", true, "1999-01-01 00:00:00"⟩ : todo).Title ≠ ""
    ∧ createTodo
        (Except.ok ⟨"ffffffffffffffffffffffff", "walk dog", true, "1999-01-01 00:00:00"⟩)
        sampleId sampleTime none [] =
      ⟨some ⟨StatusCreated, Body.messageData "Todo created successfully"
          ⟨sampleId, "walk dog", false, sampleTime⟩⟩,
       [⟨sampleId, "walk dog", false, sampleTime⟩], 1⟩ :=
  ⟨by decide,
   C10_create_server_side_fields
     ⟨"ffffffffffffffffffffffff", "walk dog", true, "1999-01-01 00:00:00"⟩
     sampleId sampleTime [] (by decide)⟩
